import Mathlib

/-!
# Verification of the houdini-node transcoding core

Shallow embedding of the Rust crate `houdini-node` (files `src/lib.rs`,
`src/attribute_data_basic.rs`, `src/attribute_types.rs` and the derive
macro in `packages/houdini-node-macro/src/lib.rs`).

The crate converts between a columnar, dynamically typed attribute format
(`RawAttribute` / `RawAttributeData`) and strongly typed row collections,
and assembles the four entity collections of a geometry snapshot,
performing the vertex-to-point index remapping of primitive connectivity
on the encode side.

Rust `Vec<T>` becomes `List T`; `HashMap` becomes an association list with
uniquely keyed operations; fallible code returns `Except Error`; `usize`
becomes `Nat` and `i32` becomes `Int` (no overflowing arithmetic is
performed on attribute values anywhere in the embedded code).
-/

/-- Carrier for the Rust `f32` scalar type.  The embedded code performs no
floating-point arithmetic on attribute values - it only stores, regroups
and moves them - so each `f32` value is modelled by its 32-bit pattern. -/
structure F32 where
  bits : Nat
deriving DecidableEq, Repr

/-- Rust `i32` attribute scalars.  The embedded code performs no
arithmetic on them (the only conversion, `bool as i32`, produces 0 or 1),
so unbounded integers are a faithful carrier. -/
abbrev I32 := Int

/-- Rust `String` attribute scalars. -/
abbrev Str := String

/-- Mirrors `enum AttributeType` of `src/lib.rs`. -/
inductive AttributeType where
  | Float
  | FloatArray
  | Int
  | IntArray
  | String
  | StringArray
  | Index
  | PrimVertex
deriving DecidableEq, Repr

/-- Mirrors `enum EntityKind` of `src/lib.rs`. -/
inductive EntityKind where
  | Point
  | Vertex
  | Prim
  | Detail
deriving DecidableEq, Repr

/-- Mirrors `enum RawAttributeData` of `src/lib.rs`: a tagged union over
homogeneous vectors of one scalar kind. -/
inductive RawAttributeData where
  | Float (v : List F32)
  | FloatArray (v : List (List F32))
  | Int (v : List Int)
  | IntArray (v : List (List Int))
  | String (v : List String)
  | StringArray (v : List (List String))
  | Index (v : List Nat)
  | PrimVertex (v : List (List Nat))
deriving DecidableEq, Repr

/-- Mirrors `enum Error` of `src/lib.rs`.  The `Io` and `Json` transport
variants wrap external library errors outside the transcoding core and
are not produced by any embedded function, so they are omitted here. -/
inductive Error where
  | NoGeometry
  | NoDetail
  | InvalidAttributeLength (expected : Nat) (actual : Nat)
  | InvalidAttributeType (expected : AttributeType) (actual : AttributeType)
  | GeometryMissing (i : Nat)
  | UserError (msg : String)
  | MissingAttr (input_index : Nat) (entity : EntityKind) (attr : String)
  | MissingOutPrimVertices
  | MissingOutVertexPtnums
  | InvalidOutVertexPtnum
  | InvalidOutPrimVertex (v : Nat)
  | AttrNameCollision (name : String)
deriving DecidableEq, Repr

/-- Mirrors `struct RawAttribute` of `src/lib.rs`. -/
structure RawAttribute where
  tuple_size : Nat
  data : RawAttributeData
deriving DecidableEq, Repr

/-- Mirrors `RawAttributeData::len` of `src/lib.rs`. -/
def RawAttributeData.len : RawAttributeData → Nat
  | .Float v => v.length
  | .FloatArray v => v.length
  | .Int v => v.length
  | .IntArray v => v.length
  | .String v => v.length
  | .StringArray v => v.length
  | .Index v => v.length
  | .PrimVertex v => v.length

/-- Mirrors `RawAttributeData::kind` of `src/lib.rs`. -/
def RawAttributeData.kind : RawAttributeData → AttributeType
  | .Float _ => .Float
  | .FloatArray _ => .FloatArray
  | .Int _ => .Int
  | .IntArray _ => .IntArray
  | .String _ => .String
  | .StringArray _ => .StringArray
  | .Index _ => .Index
  | .PrimVertex _ => .PrimVertex

/-- Mirrors `RawAttributeData::float` of `src/lib.rs` (the other accessors
follow the same pattern via the `err` helper). -/
def RawAttributeData.float : RawAttributeData → Except Error (List F32)
  | .Float v => .ok v
  | other => .error (.InvalidAttributeType .Float other.kind)

/-- Mirrors `RawAttributeData::int` of `src/lib.rs`. -/
def RawAttributeData.int : RawAttributeData → Except Error (List I32)
  | .Int v => .ok v
  | other => .error (.InvalidAttributeType .Int other.kind)

/-- Mirrors `RawAttributeData::string` of `src/lib.rs`. -/
def RawAttributeData.string : RawAttributeData → Except Error (List Str)
  | .String v => .ok v
  | other => .error (.InvalidAttributeType .String other.kind)

/-- Mirrors `RawAttributeData::index` of `src/lib.rs`. -/
def RawAttributeData.index : RawAttributeData → Except Error (List Nat)
  | .Index v => .ok v
  | other => .error (.InvalidAttributeType .Index other.kind)

/-- Mirrors `RawAttributeData::prim_vertex` of `src/lib.rs`. -/
def RawAttributeData.prim_vertex : RawAttributeData → Except Error (List (List Nat))
  | .PrimVertex v => .ok v
  | other => .error (.InvalidAttributeType .PrimVertex other.kind)

/-- An entity collection: a mapping from attribute name to column.
`HashMap<String, RawAttribute>` is modelled as an association list with
uniquely keyed operations (insertion order is irrelevant per the format). -/
abbrev AttrMap : Type := List (String × RawAttribute)

/-- `HashMap::is_empty`. -/
def AttrMap.isEmptyM (m : AttrMap) : Bool := List.isEmpty m

/-- `HashMap::get` (by key). -/
def AttrMap.lookup (m : AttrMap) (k : String) : Option RawAttribute :=
  (List.find? (fun e => e.1 == k) m).map (fun e => e.2)

/-- The removal effect of `HashMap::remove`: the map without key `k`. -/
def AttrMap.removeKey (m : AttrMap) (k : String) : AttrMap :=
  List.filter (fun e => !(e.1 == k)) m

/-- `HashMap::contains_key`. -/
def AttrMap.containsKey (m : AttrMap) (k : String) : Bool :=
  List.any m (fun e => e.1 == k)

/-- `HashMap::insert` (replacing any previous binding of the key). -/
def AttrMap.insertKey (m : AttrMap) (k : String) (v : RawAttribute) : AttrMap :=
  (k, v) :: m.removeKey k

/-- Decoded geometry aggregate, mirrors `struct Geometry<Pt, Vt, Pr, Dt>`
of `src/lib.rs` in row-oriented form. -/
structure Geometry (Pt Vt Pr Dt : Type) where
  points : List Pt
  vertices : List Vt
  prims : List Pr
  detail : Dt
deriving DecidableEq

/-- Mirrors `struct RawGeometry` of `src/lib.rs` (decode-side input). -/
structure RawGeometry where
  points : AttrMap
  vertices : AttrMap
  prims : AttrMap
  detail : AttrMap
deriving DecidableEq, Repr

/-- Mirrors `struct RawGeometryOutput` of `src/lib.rs` (encode-side output). -/
structure RawGeometryOutput where
  points : AttrMap
  vertices : AttrMap
  prims : AttrMap
  detail : AttrMap
deriving DecidableEq, Repr

/-- Mirrors `struct ErrContext` of `src/lib.rs`. -/
structure ErrContext where
  input_index : Nat
  entity : EntityKind

/-- One vertex-index rewritten through the vertex-to-point table: the body
of the innermost loop of `IntoRawGeometry::into_raw` (`src/lib.rs`,
`*v = *vert2pt.get(*v).ok_or_else(|| Error::InvalidOutPrimVertex(*v))?`). -/
def remapVert (vert2pt : List Nat) (v : Nat) : Except Error Nat :=
  match vert2pt[v]? with
  | some p => .ok p
  | none => .error (.InvalidOutPrimVertex v)

/-- One primitive's vertex list rewritten element by element in order. -/
def remapVertList (vert2pt : List Nat) (l : List Nat) : Except Error (List Nat) :=
  l.mapM (remapVert vert2pt)

/-- The in-place rewrite of the `vertices` pseudo-attribute's data:
`prim_vertex_iter_mut` (failing with `InvalidAttributeType` on a
non-`PrimVertex` variant) followed by the per-element remap loop. -/
def remapData (vert2pt : List Nat) : RawAttributeData → Except Error RawAttributeData
  | .PrimVertex pls => (pls.mapM (remapVertList vert2pt)).map RawAttributeData.PrimVertex
  | other => .error (.InvalidAttributeType .PrimVertex other.kind)

/-- Mirrors `IntoRawGeometry::into_raw` for `Geometry` (`src/lib.rs` lines
334-371), parameterised by the four already-encoded attribute maps
(`Pt::into_attr(self.points)` etc. - the per-structure encoders are
derived code, generic over the user's row types). -/
def Geometry.into_raw (points vertices prims detail : AttrMap) :
    Except Error RawGeometryOutput :=
  if !prims.isEmptyM then
    match prims.lookup "vertices" with
    | none => .error .MissingOutPrimVertices
    | some primverts =>
      let prims' := prims.removeKey "vertices"
      match vertices.lookup "ptnum" with
      | none => .error .MissingOutVertexPtnums
      | some ptnumAttr =>
        match ptnumAttr.data with
        | .Index vert2pt =>
          match remapData vert2pt primverts.data with
          | .error e => .error e
          | .ok newData =>
            if prims'.containsKey "points" then
              .error (.AttrNameCollision "points")
            else
              .ok ⟨points, vertices,
                prims'.insertKey "points" ⟨primverts.tuple_size, newData⟩, detail⟩
        | _ => .error .InvalidOutVertexPtnum
  else
    .ok ⟨points, vertices, prims, detail⟩

/-- Mirrors `FromRawGeometry::from_raw` for `Geometry` (`src/lib.rs` lines
274-321), parameterised by the four derived `InAttrs::from_attr` decoders
and by `Dt::empty()` (`InAttrs::empty`, which returns `Some` exactly for
the unit type).  Iterators of rows become lists; `details.next()` becomes
`head?`. -/
def Geometry.from_raw {Pt Vt Pr Dt : Type}
    (ptF : AttrMap → ErrContext → Except Error (List Pt))
    (vtF : AttrMap → ErrContext → Except Error (List Vt))
    (prF : AttrMap → ErrContext → Except Error (List Pr))
    (dtF : AttrMap → ErrContext → Except Error (List Dt))
    (dtEmpty : Option Dt)
    (raw : RawGeometry) (input_index : Nat) :
    Except Error (Geometry Pt Vt Pr Dt) :=
  match dtF raw.detail ⟨input_index, .Detail⟩ with
  | .error e => .error e
  | .ok details =>
    match
      (match details.head? with
       | some d => Except.ok d
       | none =>
         match dtEmpty with
         | some v => Except.ok v
         | none => Except.error Error.NoDetail) with
    | .error e => .error e
    | .ok detail =>
      match ptF raw.points ⟨input_index, .Point⟩ with
      | .error e => .error e
      | .ok points =>
        match vtF raw.vertices ⟨input_index, .Vertex⟩ with
        | .error e => .error e
        | .ok vertices =>
          match prF raw.prims ⟨input_index, .Prim⟩ with
          | .error e => .error e
          | .ok prims => .ok ⟨points, vertices, prims, detail⟩

/-- Mirrors `into_array_iter` of `src/attribute_data_basic.rs`: groups the
flat vector into consecutive chunks of `n` elements, stopping as soon as
fewer than `n` elements remain (`next_array` returns `None` on a partial
final chunk, which is therefore never produced).  No embedded data source
has arity 0, so the degenerate `n = 0` case (on which the Rust iterator
would never terminate) is mapped to the empty list. -/
def chunkExact {α : Type} (n : Nat) (l : List α) : List (List α) :=
  if _h : 0 < n ∧ n ≤ l.length then
    l.take n :: chunkExact n (l.drop n)
  else
    []
termination_by l.length
decreasing_by simp only [List.length_drop]; omega

/-- Mirrors `glam::Vec2` (two `f32` components). -/
structure Vec2 where
  x : F32
  y : F32
deriving DecidableEq, Repr

/-- Mirrors `glam::Vec3`. -/
structure Vec3 where
  x : F32
  y : F32
  z : F32
deriving DecidableEq, Repr

/-- Mirrors `glam::Vec4`. -/
structure Vec4 where
  x : F32
  y : F32
  z : F32
  w : F32
deriving DecidableEq, Repr

/-- Mirrors `glam::Quat` (x, y, z, w components). -/
structure Quat where
  x : F32
  y : F32
  z : F32
  w : F32
deriving DecidableEq, Repr

/-- Mirrors `glam::Mat2` (two column vectors). -/
structure Mat2 where
  x_axis : Vec2
  y_axis : Vec2
deriving DecidableEq, Repr

/-- Mirrors `glam::Mat3` (three column vectors). -/
structure Mat3 where
  x_axis : Vec3
  y_axis : Vec3
  z_axis : Vec3
deriving DecidableEq, Repr

/-- Mirrors `glam::Mat4` (four column vectors). -/
structure Mat4 where
  x_axis : Vec4
  y_axis : Vec4
  z_axis : Vec4
  w_axis : Vec4
deriving DecidableEq, Repr

/-- `Vec2::from([x, y])` on a chunk.  A chunk of the wrong length cannot
arise (Rust's `[f32; 2]` is length-exact by type); the catch-all branch is
unreachable on chunks produced by `chunkExact 2`. -/
def Vec2.from_chunk : List F32 → Vec2
  | [x, y] => ⟨x, y⟩
  | _ => ⟨⟨0⟩, ⟨0⟩⟩

/-- `<[f32; 2]>::from(Vec2)` (the `Into` direction). -/
def Vec2.to_chunk (v : Vec2) : List F32 := [v.x, v.y]

/-- `Vec3::from([x, y, z])` on a chunk (catch-all unreachable, as above). -/
def Vec3.from_chunk : List F32 → Vec3
  | [x, y, z] => ⟨x, y, z⟩
  | _ => ⟨⟨0⟩, ⟨0⟩, ⟨0⟩⟩

/-- `<[f32; 3]>::from(Vec3)`. -/
def Vec3.to_chunk (v : Vec3) : List F32 := [v.x, v.y, v.z]

/-- `Vec4::from([x, y, z, w])` on a chunk (catch-all unreachable). -/
def Vec4.from_chunk : List F32 → Vec4
  | [x, y, z, w] => ⟨x, y, z, w⟩
  | _ => ⟨⟨0⟩, ⟨0⟩, ⟨0⟩, ⟨0⟩⟩

/-- `<[f32; 4]>::from(Vec4)`. -/
def Vec4.to_chunk (v : Vec4) : List F32 := [v.x, v.y, v.z, v.w]

/-- `Quat::from_xyzw(x, y, z, w)` on a chunk (catch-all unreachable). -/
def Quat.from_chunk : List F32 → Quat
  | [x, y, z, w] => ⟨x, y, z, w⟩
  | _ => ⟨⟨0⟩, ⟨0⟩, ⟨0⟩, ⟨0⟩⟩

/-- `|q| [q.x, q.y, q.z, q.w]`. -/
def Quat.to_chunk (q : Quat) : List F32 := [q.x, q.y, q.z, q.w]

/-- `Mat2::from_cols_array` (column-major, catch-all unreachable). -/
def Mat2.from_chunk : List F32 → Mat2
  | [a, b, c, d] => ⟨⟨a, b⟩, ⟨c, d⟩⟩
  | _ => ⟨⟨⟨0⟩, ⟨0⟩⟩, ⟨⟨0⟩, ⟨0⟩⟩⟩

/-- `Mat2::to_cols_array` (column-major). -/
def Mat2.to_chunk (m : Mat2) : List F32 :=
  [m.x_axis.x, m.x_axis.y, m.y_axis.x, m.y_axis.y]

/-- `Mat3::from_cols_array` (column-major, catch-all unreachable). -/
def Mat3.from_chunk : List F32 → Mat3
  | [a, b, c, d, e, f, g, h, i] => ⟨⟨a, b, c⟩, ⟨d, e, f⟩, ⟨g, h, i⟩⟩
  | _ => ⟨⟨⟨0⟩, ⟨0⟩, ⟨0⟩⟩, ⟨⟨0⟩, ⟨0⟩, ⟨0⟩⟩, ⟨⟨0⟩, ⟨0⟩, ⟨0⟩⟩⟩

/-- `Mat3::to_cols_array` (column-major). -/
def Mat3.to_chunk (m : Mat3) : List F32 :=
  [m.x_axis.x, m.x_axis.y, m.x_axis.z,
   m.y_axis.x, m.y_axis.y, m.y_axis.z,
   m.z_axis.x, m.z_axis.y, m.z_axis.z]

/-- `Mat4::from_cols_array` (column-major, catch-all unreachable). -/
def Mat4.from_chunk : List F32 → Mat4
  | [a, b, c, d, e, f, g, h, i, j, k, l, m, n, o, p] =>
    ⟨⟨a, b, c, d⟩, ⟨e, f, g, h⟩, ⟨i, j, k, l⟩, ⟨m, n, o, p⟩⟩
  | _ => ⟨⟨⟨0⟩, ⟨0⟩, ⟨0⟩, ⟨0⟩⟩, ⟨⟨0⟩, ⟨0⟩, ⟨0⟩, ⟨0⟩⟩,
         ⟨⟨0⟩, ⟨0⟩, ⟨0⟩, ⟨0⟩⟩, ⟨⟨0⟩, ⟨0⟩, ⟨0⟩, ⟨0⟩⟩⟩

/-- `Mat4::to_cols_array` (column-major). -/
def Mat4.to_chunk (m : Mat4) : List F32 :=
  [m.x_axis.x, m.x_axis.y, m.x_axis.z, m.x_axis.w,
   m.y_axis.x, m.y_axis.y, m.y_axis.z, m.y_axis.w,
   m.z_axis.x, m.z_axis.y, m.z_axis.z, m.z_axis.w,
   m.w_axis.x, m.w_axis.y, m.w_axis.z, m.w_axis.w]

/-- The closed catalogue of field types for which the crate implements
both `FromAttributeData` and `IntoAttributeData`: the raw scalar
passthroughs of `src/attribute_data_basic.rs` (`f32`, `i32`, `String`,
`usize`, `Vec<usize>`) and the adapters of `src/attribute_types.rs`
(`bool`, `Vec2`, `Vec3`, `Vec4`, `Quat`, `Mat2`, `Mat3`, `Mat4`). -/
inductive FieldType where
  | f32T
  | i32T
  | stringT
  | indexT
  | vertListT
  | boolT
  | vec2T
  | vec3T
  | vec4T
  | quatT
  | mat2T
  | mat3T
  | mat4T
deriving DecidableEq, Repr

/-- The Lean carrier of each field type. -/
def FieldType.carrier : FieldType → Type
  | .f32T => F32
  | .i32T => I32
  | .stringT => Str
  | .indexT => Nat
  | .vertListT => List Nat
  | .boolT => Bool
  | .vec2T => Vec2
  | .vec3T => Vec3
  | .vec4T => Vec4
  | .quatT => Quat
  | .mat2T => Mat2
  | .mat3T => Mat3
  | .mat4T => Mat4

/-- `<Self::DataType as IntoAttributeDataSource>::LEN` - the tuple arity of
each field type's data source (1 for scalar passthroughs and `bool`; the
chunk width for the glam adapters). -/
def FieldType.arity : FieldType → Nat
  | .f32T => 1
  | .i32T => 1
  | .stringT => 1
  | .indexT => 1
  | .vertListT => 1
  | .boolT => 1
  | .vec2T => 2
  | .vec3T => 3
  | .vec4T => 4
  | .quatT => 4
  | .mat2T => 4
  | .mat3T => 9
  | .mat4T => 16

/-- The scalar kind of the column each field type's data source consumes
and produces. -/
def FieldType.dataKind : FieldType → AttributeType
  | .f32T => .Float
  | .i32T => .Int
  | .stringT => .String
  | .indexT => .Index
  | .vertListT => .PrimVertex
  | .boolT => .Int
  | .vec2T => .Float
  | .vec3T => .Float
  | .vec4T => .Float
  | .quatT => .Float
  | .mat2T => .Float
  | .mat3T => .Float
  | .mat4T => .Float

/-- The composed encode path for one field: `IntoAttributeData::into_attr_data`
(the per-value type adapter) followed by `IntoAttributeDataSource::into_attr_data`
(collect, or flatten-and-collect for chunked sources).  This is the `data`
built by `generate_to_attr` (`src/lib.rs` lines 497-504). -/
def FieldType.encodeData : (t : FieldType) → List t.carrier → RawAttributeData
  | .f32T, vals => .Float vals
  | .i32T, vals => .Int vals
  | .stringT, vals => .String vals
  | .indexT, vals => .Index vals
  | .vertListT, vals => .PrimVertex vals
  | .boolT, vals => .Int (vals.map (fun (b : Bool) => if b then 1 else 0))
  | .vec2T, vals => .Float (vals.map Vec2.to_chunk).flatten
  | .vec3T, vals => .Float (vals.map Vec3.to_chunk).flatten
  | .vec4T, vals => .Float (vals.map Vec4.to_chunk).flatten
  | .quatT, vals => .Float (vals.map Quat.to_chunk).flatten
  | .mat2T, vals => .Float (vals.map Mat2.to_chunk).flatten
  | .mat3T, vals => .Float (vals.map Mat3.to_chunk).flatten
  | .mat4T, vals => .Float (vals.map Mat4.to_chunk).flatten

/-- Mirrors `generate_to_attr` of `src/lib.rs`: encode the field values of
all rows into one column, stamped with the data source's arity. -/
def generate_to_attr (t : FieldType) (vals : List t.carrier) : RawAttribute :=
  ⟨t.arity, t.encodeData vals⟩

/-- The composed decode path below the arity check:
`FromAttributeDataSource::from_attr_data` (kind-checked extraction of the
scalar vector, chunked by `into_array_iter` for array sources) followed by
`FromAttributeData::from_attr_data` (the per-value type adapter). -/
def FieldType.decodeData : (t : FieldType) → RawAttribute → Except Error (List t.carrier)
  | .f32T, attr => attr.data.float
  | .i32T, attr => attr.data.int
  | .stringT, attr => attr.data.string
  | .indexT, attr => attr.data.index
  | .vertListT, attr => attr.data.prim_vertex
  | .boolT, attr => (attr.data.int).map (fun l => l.map (fun v => v != 0))
  | .vec2T, attr => (attr.data.float).map (fun l => (chunkExact 2 l).map Vec2.from_chunk)
  | .vec3T, attr => (attr.data.float).map (fun l => (chunkExact 3 l).map Vec3.from_chunk)
  | .vec4T, attr => (attr.data.float).map (fun l => (chunkExact 4 l).map Vec4.from_chunk)
  | .quatT, attr => (attr.data.float).map (fun l => (chunkExact 4 l).map Quat.from_chunk)
  | .mat2T, attr => (attr.data.float).map (fun l => (chunkExact 4 l).map Mat2.from_chunk)
  | .mat3T, attr => (attr.data.float).map (fun l => (chunkExact 9 l).map Mat3.from_chunk)
  | .mat4T, attr => (attr.data.float).map (fun l => (chunkExact 16 l).map Mat4.from_chunk)

/-- Mirrors the provided method `FromAttributeData::from_attr_data_raw`
(`src/lib.rs` lines 452-476): a missing attribute fails with
`MissingAttr`; a declared `tuple_size` different from the data source's
`LEN` fails with `InvalidAttributeLength` before any chunking or value
conversion; otherwise the data source and adapter run. -/
def from_attr_data_raw (t : FieldType) (attr : Option RawAttribute)
    (_num_elements : Nat) (attr_name : String) (err_context : ErrContext) :
    Except Error (List t.carrier) :=
  match attr with
  | none =>
    .error (.MissingAttr err_context.input_index err_context.entity attr_name)
  | some attr =>
    if attr.tuple_size != t.arity then
      .error (.InvalidAttributeLength t.arity attr.tuple_size)
    else
      t.decodeData attr

/-- Mirrors `impl FromAttributeData for Option<T>` of
`src/attribute_types.rs` (lines 8-31), which overrides
`from_attr_data_raw`: a present column delegates to `T`'s decoder and
wraps each value in `Some`; an absent column yields `num_elements`
copies of `None` without consulting `T`'s decoder at all.  `T`'s decoder
is abstracted as a function argument, exactly the `T::from_attr_data_raw`
call of the source. -/
def optionFromAttrDataRaw {β : Type}
    (tDecodeRaw : Option RawAttribute → Nat → String → ErrContext → Except Error (List β))
    (attr : Option RawAttribute) (num_elements : Nat) (attr_name : String)
    (err_context : ErrContext) : Except Error (List (Option β)) :=
  match attr with
  | some attr =>
    (tDecodeRaw (some attr) num_elements attr_name err_context).map
      (fun l => l.map some)
  | none => .ok (List.replicate num_elements none)

/-- Mirrors the decode side of the entity derive
(`packages/houdini-node-macro/src/lib.rs`, `impl_entity_from_attribute`)
for a two-field structure: each field is loaded from its attribute by
name, then the per-field sequences are zipped position-wise
(`itertools::izip!`) into constructed rows. -/
def entityFromAttr2 {γ : Type} (t1 t2 : FieldType)
    (mk : t1.carrier → t2.carrier → γ)
    (name1 name2 : String) (attrs : AttrMap) (num_elements : Nat)
    (err_context : ErrContext) : Except Error (List γ) :=
  match from_attr_data_raw t1 (attrs.lookup name1) num_elements name1 err_context with
  | .error e => .error e
  | .ok l1 =>
    match from_attr_data_raw t2 (attrs.lookup name2) num_elements name2 err_context with
    | .error e => .error e
    | .ok l2 => .ok (List.zipWith mk l1 l2)

/-! ## Helper lemmas -/

/-- A successful lookup means the map is non-empty. -/
theorem AttrMap.lookup_ne_empty {m : AttrMap} {k : String} {v : RawAttribute}
    (h : m.lookup k = some v) : m.isEmptyM = false := by
  cases m with
  | nil => simp [AttrMap.lookup, List.find?] at h
  | cons e es => rfl

/-- Chunking a flattened list of uniform `n`-length chunks recovers the
chunks. -/
theorem chunkExact_flatten {α : Type} {n : Nat} (hn : 0 < n) :
    ∀ {ls : List (List α)}, (∀ c ∈ ls, c.length = n) →
      chunkExact n ls.flatten = ls := by
  intro ls
  induction ls with
  | nil =>
    intro _
    rw [List.flatten_nil]
    unfold chunkExact
    rw [dif_neg]
    simp only [List.length_nil, not_and]
    omega
  | cons c cs ih =>
    intro hc
    have hcl : c.length = n := hc c (List.mem_cons_self c cs)
    rw [List.flatten_cons]
    unfold chunkExact
    rw [dif_pos ⟨hn, by simp only [List.length_append]; omega⟩]
    rw [List.take_left' hcl, List.drop_left' hcl,
      ih (fun c' h' => hc c' (List.mem_cons_of_mem c h'))]

/-- Mapping a left inverse over a mapped list recovers the list. -/
theorem map_map_of_inverse {α β : Type} {f : α → β} {g : β → α}
    (h : ∀ a, g (f a) = a) (l : List α) : (l.map f).map g = l := by
  induction l with
  | nil => rfl
  | cons a l ih => simp only [List.map_cons, h, ih]

/-- The flattening of uniform `n`-length chunks has length `n * count`. -/
theorem flatten_length_uniform {α : Type} (n : Nat) :
    ∀ {ls : List (List α)}, (∀ c ∈ ls, c.length = n) →
      ls.flatten.length = n * ls.length := by
  intro ls
  induction ls with
  | nil => intro _; simp
  | cons c cs ih =>
    intro hc
    have hcl : c.length = n := hc c (List.mem_cons_self c cs)
    rw [List.flatten_cons, List.length_append, hcl,
      ih (fun c' h' => hc c' (List.mem_cons_of_mem c h')),
      List.length_cons, Nat.mul_succ]
    omega

/-- In-bounds remap of a single vertex index. -/
theorem remapVert_ok {vert2pt : List Nat} {v : Nat} (h : v < vert2pt.length) :
    remapVert vert2pt v = .ok (vert2pt.getD v 0) := by
  unfold remapVert
  rw [List.getElem?_eq_getElem h]
  simp [List.getD_eq_getElem?_getD, List.getElem?_eq_getElem h]

/-- Out-of-bounds remap of a single vertex index. -/
theorem remapVert_err {vert2pt : List Nat} {v : Nat} (h : vert2pt.length ≤ v) :
    remapVert vert2pt v = .error (.InvalidOutPrimVertex v) := by
  unfold remapVert
  rw [List.getElem?_eq_none h]

/-- Remapping a fully in-bounds vertex list rewrites it element by element
in original order. -/
theorem remapVertList_ok {vert2pt : List Nat} :
    ∀ {l : List Nat}, (∀ v ∈ l, v < vert2pt.length) →
      remapVertList vert2pt l = .ok (l.map (fun v => vert2pt.getD v 0)) := by
  intro l
  induction l with
  | nil => intro _; rfl
  | cons a l ih =>
    intro h
    have ha : a < vert2pt.length := h a (List.mem_cons_self a l)
    unfold remapVertList at *
    rw [List.mapM_cons, remapVert_ok ha,
      ih (fun v hv => h v (List.mem_cons_of_mem a hv))]
    rfl

/-- Remapping a vertex list fails at the first out-of-bounds index. -/
theorem remapVertList_err {vert2pt : List Nat} :
    ∀ {l : List Nat} {v : Nat},
      l.find? (fun u => decide (vert2pt.length ≤ u)) = some v →
      remapVertList vert2pt l = .error (.InvalidOutPrimVertex v) := by
  intro l
  induction l with
  | nil => intro v h; simp [List.find?] at h
  | cons a l ih =>
    intro v h
    rw [List.find?_cons] at h
    by_cases ha : vert2pt.length ≤ a
    · simp [ha] at h
      cases h
      unfold remapVertList
      rw [List.mapM_cons, remapVert_err ha]
      rfl
    · simp [ha] at h
      have ha' : a < vert2pt.length := by omega
      unfold remapVertList at *
      rw [List.mapM_cons, remapVert_ok ha']
      show Except.bind _ _ = _
      rw [ih h]
      rfl

/-- Remapping all primitives' vertex lists, success case. -/
theorem mapM_remapVertList_ok {vert2pt : List Nat} :
    ∀ {pls : List (List Nat)}, (∀ v ∈ pls.flatten, v < vert2pt.length) →
      pls.mapM (remapVertList vert2pt)
        = .ok (pls.map (List.map (fun v => vert2pt.getD v 0))) := by
  intro pls
  induction pls with
  | nil => intro _; rfl
  | cons c cs ih =>
    intro h
    rw [List.flatten_cons] at h
    rw [List.mapM_cons,
      remapVertList_ok (fun v hv => h v (List.mem_append_left _ hv)),
      ih (fun v hv => h v (List.mem_append_right _ hv))]
    rfl

/-- Remapping all primitives' vertex lists fails at the first
out-of-bounds index of the concatenated traversal. -/
theorem mapM_remapVertList_err {vert2pt : List Nat} :
    ∀ {pls : List (List Nat)} {v : Nat},
      pls.flatten.find? (fun u => decide (vert2pt.length ≤ u)) = some v →
      pls.mapM (remapVertList vert2pt) = .error (.InvalidOutPrimVertex v) := by
  intro pls
  induction pls with
  | nil => intro v h; simp [List.flatten_nil, List.find?] at h
  | cons c cs ih =>
    intro v h
    rw [List.flatten_cons, List.find?_append] at h
    cases hc : c.find? (fun u => decide (vert2pt.length ≤ u)) with
    | some v0 =>
      rw [hc] at h
      simp only [Option.or_some] at h
      cases h
      rw [List.mapM_cons, remapVertList_err hc]
      rfl
    | none =>
      rw [hc] at h
      simp only [Option.none_or] at h
      have hcall : ∀ v' ∈ c, v' < vert2pt.length := by
        intro v' hv'
        have := List.find?_eq_none.mp hc v' hv'
        simp at this
        omega
      rw [List.mapM_cons, remapVertList_ok hcall]
      show Except.bind _ _ = _
      rw [ih h]
      rfl

/-- Removal never introduces a key. -/
theorem AttrMap.removeKey_contains_mono (m : AttrMap) (k k' : String)
    (hm : m.containsKey k' = false) : (m.removeKey k).containsKey k' = false := by
  simp only [AttrMap.removeKey, AttrMap.containsKey, List.any_eq_false] at *
  intro e he
  exact hm e (List.mem_of_mem_filter he)

/-- A key just inserted is contained. -/
theorem AttrMap.insertKey_contains_self (m : AttrMap) (k : String) (v : RawAttribute) :
    (m.insertKey k v).containsKey k = true := by
  simp [AttrMap.insertKey, AttrMap.containsKey]

/-- Removing a key removes it. -/
theorem AttrMap.removeKey_contains_self (m : AttrMap) (k : String) :
    (m.removeKey k).containsKey k = false := by
  simp only [AttrMap.removeKey, AttrMap.containsKey, List.any_eq_false]
  intro e he
  have := (List.mem_filter.mp he).2
  simp only [Bool.not_eq_eq_eq_not, Bool.not_true] at this
  simp [this]

/-- Containment of a different key is unaffected by an insertion. -/
theorem AttrMap.insertKey_contains_other (m : AttrMap) {k k' : String}
    (v : RawAttribute) (h : (k' == k) = false) :
    (m.insertKey k v).containsKey k' = (m.removeKey k).containsKey k' := by
  have h2 : (k == k') = false := by
    rw [beq_eq_false_iff_ne] at *
    exact fun e => h e.symm
  simp [AttrMap.insertKey, AttrMap.containsKey, h2]

/-- Evaluation of `into_raw` once the `vertices` and `ptnum`
pseudo-attributes are known to be present and well-kinded. -/
theorem into_raw_eval (points vertices prims detail : AttrMap)
    (ts tsv : Nat) (pls : List (List Nat)) (vert2pt : List Nat)
    (hv : prims.lookup "vertices" = some ⟨ts, .PrimVertex pls⟩)
    (hp : vertices.lookup "ptnum" = some ⟨tsv, .Index vert2pt⟩) :
    Geometry.into_raw points vertices prims detail =
      match (pls.mapM (remapVertList vert2pt)).map RawAttributeData.PrimVertex with
      | .error e => .error e
      | .ok newData =>
        if (prims.removeKey "vertices").containsKey "points" then
          .error (.AttrNameCollision "points")
        else
          .ok ⟨points, vertices,
            (prims.removeKey "vertices").insertKey "points" ⟨ts, newData⟩,
            detail⟩ := by
  unfold Geometry.into_raw
  rw [AttrMap.lookup_ne_empty hv]
  simp only [Bool.not_false, if_true, hv, hp]
  rfl

/-- **C1** During encode, when the primitive attribute map is non-empty,
every vertex-index in every primitive's `vertices` list is replaced, in
place, element by element in original order, by the point index stored at
that position of the vertex collection's `ptnum` Index column; and any
vertex-index at or beyond the length of the `ptnum` table makes encoding
fail with `InvalidOutPrimVertex` naming the raw (un-remapped) index (the
first offending one in traversal order). -/
theorem into_raw_remaps_connectivity
    (points vertices prims detail : AttrMap) (ts tsv : Nat)
    (pls : List (List Nat)) (vert2pt : List Nat)
    (hv : prims.lookup "vertices" = some ⟨ts, .PrimVertex pls⟩)
    (hp : vertices.lookup "ptnum" = some ⟨tsv, .Index vert2pt⟩) :
    ((∀ v ∈ pls.flatten, v < vert2pt.length) →
      (prims.removeKey "vertices").containsKey "points" = false →
      Geometry.into_raw points vertices prims detail
        = .ok ⟨points, vertices,
            (prims.removeKey "vertices").insertKey "points"
              ⟨ts, .PrimVertex (pls.map (List.map (fun v => vert2pt.getD v 0)))⟩,
            detail⟩)
    ∧ (∀ v : Nat,
        pls.flatten.find? (fun u => decide (vert2pt.length ≤ u)) = some v →
        Geometry.into_raw points vertices prims detail
          = .error (.InvalidOutPrimVertex v)) := by
  rw [into_raw_eval points vertices prims detail ts tsv pls vert2pt hv hp]
  constructor
  · intro hb hc
    rw [mapM_remapVertList_ok hb]
    simp [Except.map, hc]
  · intro v hf
    rw [mapM_remapVertList_err hf]
    rfl

/-- Witness for C1, the spec's own example: vertex table `[5, 2, 7]`,
primitive vertex list `[2, 0, 1]` encodes to point list `[7, 5, 2]`. -/
theorem into_raw_remaps_connectivity_witness :
    Geometry.into_raw [] [("ptnum", ⟨1, .Index [5, 2, 7]⟩)]
        [("vertices", ⟨1, .PrimVertex [[2, 0, 1]]⟩)] []
      = .ok ⟨[], [("ptnum", ⟨1, .Index [5, 2, 7]⟩)],
          [("points", ⟨1, .PrimVertex [[7, 5, 2]]⟩)], []⟩ := by
  have h := (into_raw_remaps_connectivity [] [("ptnum", ⟨1, .Index [5, 2, 7]⟩)]
      [("vertices", ⟨1, .PrimVertex [[2, 0, 1]]⟩)] [] 1 1 [[2, 0, 1]] [5, 2, 7]
      (by decide) (by decide)).1 (by decide) (by decide)
  exact h.trans rfl

/-- **C7** If the user-declared primitive attributes already contain an
attribute named `points`, encoding fails with `AttrNameCollision("points")`
even when the vertex-to-point remapping itself succeeds. -/
theorem into_raw_points_collision
    (points vertices prims detail : AttrMap) (ts tsv : Nat)
    (pls : List (List Nat)) (vert2pt : List Nat)
    (hv : prims.lookup "vertices" = some ⟨ts, .PrimVertex pls⟩)
    (hp : vertices.lookup "ptnum" = some ⟨tsv, .Index vert2pt⟩)
    (hb : ∀ v ∈ pls.flatten, v < vert2pt.length)
    (hc : (prims.removeKey "vertices").containsKey "points" = true) :
    Geometry.into_raw points vertices prims detail
      = .error (.AttrNameCollision "points") := by
  rw [into_raw_eval points vertices prims detail ts tsv pls vert2pt hv hp,
    mapM_remapVertList_ok hb]
  simp [Except.map, hc]

/-- Witness for C7: a primitive collection declaring `points` with an
otherwise valid connectivity fails with the name collision. -/
theorem into_raw_points_collision_witness :
    Geometry.into_raw [] [("ptnum", ⟨1, .Index [4]⟩)]
        [("vertices", ⟨1, .PrimVertex [[0]]⟩), ("points", ⟨1, .Int [3]⟩)] []
      = .error (.AttrNameCollision "points") :=
  into_raw_points_collision [] [("ptnum", ⟨1, .Index [4]⟩)]
    [("vertices", ⟨1, .PrimVertex [[0]]⟩), ("points", ⟨1, .Int [3]⟩)] []
    1 1 [[0]] [4] (by decide) (by decide) (by decide) (by decide)

/-- **C10** Every successful encode with a non-empty primitive attribute
map outputs a primitive map that contains `points` and no longer contains
the `vertices` pseudo-attribute. -/
theorem into_raw_output_has_points_not_vertices
    (points vertices prims detail : AttrMap) (out : RawGeometryOutput)
    (hne : prims.isEmptyM = false)
    (h : Geometry.into_raw points vertices prims detail = .ok out) :
    out.prims.containsKey "points" = true
      ∧ out.prims.containsKey "vertices" = false := by
  unfold Geometry.into_raw at h
  rw [hne] at h
  repeat' split at h
  all_goals try (exfalso; simp_all; done)
  all_goals dsimp only at h
  all_goals repeat' split at h
  all_goals try (exfalso; simp_all; done)
  injection h with h'
  subst h'
  refine ⟨AttrMap.insertKey_contains_self _ _ _, ?_⟩
  rw [AttrMap.insertKey_contains_other _ _ (by decide)]
  exact AttrMap.removeKey_contains_mono _ _ _ (AttrMap.removeKey_contains_self _ _)

/-- Witness for C10 at the C1 example geometry. -/
theorem into_raw_output_has_points_not_vertices_witness :
    AttrMap.containsKey [("points", ⟨1, .PrimVertex [[7, 5, 2]]⟩)] "points" = true
      ∧ AttrMap.containsKey [("points", ⟨1, .PrimVertex [[7, 5, 2]]⟩)] "vertices" = false :=
  into_raw_output_has_points_not_vertices [] [("ptnum", ⟨1, .Index [5, 2, 7]⟩)]
    [("vertices", ⟨1, .PrimVertex [[2, 0, 1]]⟩)] []
    ⟨[], [("ptnum", ⟨1, .Index [5, 2, 7]⟩)],
      [("points", ⟨1, .PrimVertex [[7, 5, 2]]⟩)], []⟩
    (by decide) (by rfl)

/-- Decoding the flattened encoding of uniform `n`-chunks through a chunk
inverse recovers the original values. -/
theorem chunked_float_roundtrip {β : Type} (n : Nat) (hn : 0 < n)
    (toC : β → List F32) (fromC : List F32 → β)
    (hlen : ∀ b, (toC b).length = n) (hinv : ∀ b, fromC (toC b) = b)
    (vals : List β) :
    (chunkExact n (vals.map toC).flatten).map fromC = vals := by
  rw [chunkExact_flatten hn (fun c hc => by
    obtain ⟨v, _, rfl⟩ := List.mem_map.mp hc
    exact hlen v)]
  exact map_map_of_inverse hinv vals

/-- **C2** Round-trip: for every supported field type and any vector of
field values, running the encode path (`generate_to_attr`, i.e.
`IntoAttributeData::into_attr_data` then
`IntoAttributeDataSource::into_attr_data`, stamping `tuple_size = LEN`)
followed by the decode path (`FromAttributeData::from_attr_data_raw`)
returns exactly the original values in order, for any entity kind and
error context. -/
theorem decode_encode_roundtrip (t : FieldType) (vals : List t.carrier)
    (n : Nat) (name : String) (ctx : ErrContext) :
    from_attr_data_raw t (some (generate_to_attr t vals)) n name ctx
      = .ok vals := by
  cases t with
  | f32T => rfl
  | i32T => rfl
  | stringT => rfl
  | indexT => rfl
  | vertListT => rfl
  | boolT =>
    exact congrArg Except.ok
      (map_map_of_inverse (fun b => by cases b <;> rfl) vals)
  | vec2T =>
    exact congrArg Except.ok (chunked_float_roundtrip 2 (by norm_num)
      Vec2.to_chunk Vec2.from_chunk (fun _ => rfl) (fun _ => rfl) vals)
  | vec3T =>
    exact congrArg Except.ok (chunked_float_roundtrip 3 (by norm_num)
      Vec3.to_chunk Vec3.from_chunk (fun _ => rfl) (fun _ => rfl) vals)
  | vec4T =>
    exact congrArg Except.ok (chunked_float_roundtrip 4 (by norm_num)
      Vec4.to_chunk Vec4.from_chunk (fun _ => rfl) (fun _ => rfl) vals)
  | quatT =>
    exact congrArg Except.ok (chunked_float_roundtrip 4 (by norm_num)
      Quat.to_chunk Quat.from_chunk (fun _ => rfl) (fun _ => rfl) vals)
  | mat2T =>
    exact congrArg Except.ok (chunked_float_roundtrip 4 (by norm_num)
      Mat2.to_chunk Mat2.from_chunk (fun _ => rfl) (fun _ => rfl) vals)
  | mat3T =>
    exact congrArg Except.ok (chunked_float_roundtrip 9 (by norm_num)
      Mat3.to_chunk Mat3.from_chunk (fun _ => rfl) (fun _ => rfl) vals)
  | mat4T =>
    exact congrArg Except.ok (chunked_float_roundtrip 16 (by norm_num)
      Mat4.to_chunk Mat4.from_chunk (fun _ => rfl) (fun _ => rfl) vals)

/-- **C3** Decoding any column whose declared `tuple_size` differs from
the target field type's expected arity fails with
`InvalidAttributeLength{expected := LEN, actual := tuple_size}`, before
any chunking or value conversion (the result does not depend on the
column's data at all), so data is never silently truncated or padded. -/
theorem arity_mismatch_fails (t : FieldType) (attr : RawAttribute)
    (n : Nat) (name : String) (ctx : ErrContext)
    (h : attr.tuple_size ≠ t.arity) :
    from_attr_data_raw t (some attr) n name ctx
      = .error (.InvalidAttributeLength t.arity attr.tuple_size) := by
  have hb : (attr.tuple_size != t.arity) = true := by
    simp [bne_iff_ne, h]
  show (if (attr.tuple_size != t.arity) = true then
      Except.error (Error.InvalidAttributeLength t.arity attr.tuple_size)
    else t.decodeData attr) = _
  rw [if_pos hb]

/-- Witness for C3: a 3-float column decoded as a plain `f32` field
(arity 1) fails with `InvalidAttributeLength{expected := 1, actual := 3}`. -/
theorem arity_mismatch_fails_witness :
    from_attr_data_raw .f32T (some ⟨3, .Float [⟨1⟩, ⟨2⟩, ⟨3⟩]⟩) 1 "P" ⟨0, .Point⟩
      = .error (.InvalidAttributeLength 1 3) :=
  arity_mismatch_fails .f32T ⟨3, .Float [⟨1⟩, ⟨2⟩, ⟨3⟩]⟩ 1 "P" ⟨0, .Point⟩
    (by decide)

/-- Counterexample to C4 as stated: an `Int` column whose `tuple_size`
(3) mismatches the `f32` target's arity (1) fails with
`InvalidAttributeLength`, not `InvalidAttributeType`, because the arity
check runs first. -/
theorem int_into_float_counterexample :
    from_attr_data_raw .f32T (some ⟨3, .Int [1, 2, 3]⟩) 3 "P" ⟨0, .Point⟩
        = .error (.InvalidAttributeLength 1 3)
      ∧ from_attr_data_raw .f32T (some ⟨3, .Int [1, 2, 3]⟩) 3 "P" ⟨0, .Point⟩
        ≠ .error (.InvalidAttributeType .Float .Int) := by
  refine ⟨rfl, ?_⟩
  intro h
  exact absurd (Except.error.inj h) (by decide)

/-- **C4 (amended)** Decoding a column of populated kind `Int` into a
target field whose scalar kind is `Float` fails with
`InvalidAttributeType{expected := Float, actual := Int}` whenever the
column's `tuple_size` matches the target's expected arity (when it does
not match, the arity check fires first with `InvalidAttributeLength`). -/
theorem int_into_float_fails (t : FieldType) (hk : t.dataKind = .Float)
    (l : List I32) (n : Nat) (name : String) (ctx : ErrContext) :
    from_attr_data_raw t (some ⟨t.arity, .Int l⟩) n name ctx
      = .error (.InvalidAttributeType .Float .Int) := by
  cases t with
  | f32T => rfl
  | i32T => exact absurd hk (by decide)
  | stringT => exact absurd hk (by decide)
  | indexT => exact absurd hk (by decide)
  | vertListT => exact absurd hk (by decide)
  | boolT => exact absurd hk (by decide)
  | vec2T => rfl
  | vec3T => rfl
  | vec4T => rfl
  | quatT => rfl
  | mat2T => rfl
  | mat3T => rfl
  | mat4T => rfl

/-- Witness for the amended C4: an `Int` column with matching arity 3
decoded into a `Vec3` (Float kind) target fails with
`InvalidAttributeType{expected := Float, actual := Int}`. -/
theorem int_into_float_fails_witness :
    from_attr_data_raw .vec3T (some ⟨3, .Int [1, 2, 3]⟩) 1 "P" ⟨0, .Point⟩
      = .error (.InvalidAttributeType .Float .Int) :=
  int_into_float_fails .vec3T (by decide) [1, 2, 3] 1 "P" ⟨0, .Point⟩

/-- **C9** Every column produced by the encode path satisfies the column
invariant: `tuple_size = LEN`, `data.len = LEN * n` for `n` input rows
(hence `data.len % tuple_size = 0`), and the number of logical tuples
`data.len / tuple_size` equals `n`. -/
theorem generate_to_attr_invariant (t : FieldType) (vals : List t.carrier) :
    (generate_to_attr t vals).tuple_size = t.arity
      ∧ (generate_to_attr t vals).data.len = t.arity * vals.length
      ∧ (generate_to_attr t vals).data.len % (generate_to_attr t vals).tuple_size = 0
      ∧ (generate_to_attr t vals).data.len / (generate_to_attr t vals).tuple_size
          = vals.length := by
  have harity : 0 < t.arity := by cases t <;> decide
  have hlen : (generate_to_attr t vals).data.len = t.arity * vals.length := by
    cases t with
    | f32T => exact (Nat.one_mul _).symm
    | i32T => exact (Nat.one_mul _).symm
    | stringT => exact (Nat.one_mul _).symm
    | indexT => exact (Nat.one_mul _).symm
    | vertListT => exact (Nat.one_mul _).symm
    | boolT =>
      show (vals.map _).length = 1 * vals.length
      rw [List.length_map, Nat.one_mul]
    | vec2T =>
      show ((vals.map Vec2.to_chunk).flatten).length = 2 * vals.length
      rw [flatten_length_uniform 2 (fun c hc => by
          obtain ⟨v, _, rfl⟩ := List.mem_map.mp hc; rfl),
        List.length_map]
    | vec3T =>
      show ((vals.map Vec3.to_chunk).flatten).length = 3 * vals.length
      rw [flatten_length_uniform 3 (fun c hc => by
          obtain ⟨v, _, rfl⟩ := List.mem_map.mp hc; rfl),
        List.length_map]
    | vec4T =>
      show ((vals.map Vec4.to_chunk).flatten).length = 4 * vals.length
      rw [flatten_length_uniform 4 (fun c hc => by
          obtain ⟨v, _, rfl⟩ := List.mem_map.mp hc; rfl),
        List.length_map]
    | quatT =>
      show ((vals.map Quat.to_chunk).flatten).length = 4 * vals.length
      rw [flatten_length_uniform 4 (fun c hc => by
          obtain ⟨v, _, rfl⟩ := List.mem_map.mp hc; rfl),
        List.length_map]
    | mat2T =>
      show ((vals.map Mat2.to_chunk).flatten).length = 4 * vals.length
      rw [flatten_length_uniform 4 (fun c hc => by
          obtain ⟨v, _, rfl⟩ := List.mem_map.mp hc; rfl),
        List.length_map]
    | mat3T =>
      show ((vals.map Mat3.to_chunk).flatten).length = 9 * vals.length
      rw [flatten_length_uniform 9 (fun c hc => by
          obtain ⟨v, _, rfl⟩ := List.mem_map.mp hc; rfl),
        List.length_map]
    | mat4T =>
      show ((vals.map Mat4.to_chunk).flatten).length = 16 * vals.length
      rw [flatten_length_uniform 16 (fun c hc => by
          obtain ⟨v, _, rfl⟩ := List.mem_map.mp hc; rfl),
        List.length_map]
  refine ⟨rfl, hlen, ?_, ?_⟩
  · show (generate_to_attr t vals).data.len % t.arity = 0
    rw [hlen]
    exact Nat.mul_mod_right _ _
  · show (generate_to_attr t vals).data.len / t.arity = vals.length
    rw [hlen]
    exact Nat.mul_div_cancel_left _ harity

/-- **C5** Detail cardinality in `from_raw`: when the detail collection's
row sequence yields zero rows, the result's detail field is the type's
default empty instance when one is defined (`empty()` returns `Some`, as
for the unit type), and decoding fails with `NoDetail` when it is not
(`empty()` returns `None`); when the sequence yields exactly one row,
that row becomes the detail field. -/
theorem from_raw_detail_cardinality {Pt Vt Pr Dt : Type}
    (ptF : AttrMap → ErrContext → Except Error (List Pt))
    (vtF : AttrMap → ErrContext → Except Error (List Vt))
    (prF : AttrMap → ErrContext → Except Error (List Pr))
    (dtF : AttrMap → ErrContext → Except Error (List Dt))
    (dtEmpty : Option Dt) (raw : RawGeometry) (i : Nat) :
    (dtF raw.detail ⟨i, .Detail⟩ = .ok [] → dtEmpty = none →
      Geometry.from_raw ptF vtF prF dtF dtEmpty raw i = .error .NoDetail)
    ∧ (∀ d, dtF raw.detail ⟨i, .Detail⟩ = .ok [] → dtEmpty = some d →
        ∀ pts vts prs, ptF raw.points ⟨i, .Point⟩ = .ok pts →
          vtF raw.vertices ⟨i, .Vertex⟩ = .ok vts →
          prF raw.prims ⟨i, .Prim⟩ = .ok prs →
          Geometry.from_raw ptF vtF prF dtF dtEmpty raw i
            = .ok ⟨pts, vts, prs, d⟩)
    ∧ (∀ d, dtF raw.detail ⟨i, .Detail⟩ = .ok [d] →
        ∀ pts vts prs, ptF raw.points ⟨i, .Point⟩ = .ok pts →
          vtF raw.vertices ⟨i, .Vertex⟩ = .ok vts →
          prF raw.prims ⟨i, .Prim⟩ = .ok prs →
          Geometry.from_raw ptF vtF prF dtF dtEmpty raw i
            = .ok ⟨pts, vts, prs, d⟩) := by
  refine ⟨?_, ?_, ?_⟩
  · intro h0 hN
    unfold Geometry.from_raw
    rw [h0, hN]
    rfl
  · intro d h0 hN pts vts prs hpt hvt hpr
    unfold Geometry.from_raw
    rw [h0, hN, hpt, hvt, hpr]
    rfl
  · intro d h1 pts vts prs hpt hvt hpr
    unfold Geometry.from_raw
    rw [h1, hpt, hvt, hpr]
    rfl

/-- Witness for C5: with decoders that produce no detail rows and an
undefined empty instance, decoding fails with `NoDetail`; with a defined
empty instance it succeeds; with exactly one detail row that row is used. -/
theorem from_raw_detail_cardinality_witness :
    (Geometry.from_raw
        (fun _ _ => .ok ([] : List Nat)) (fun _ _ => .ok ([] : List Nat))
        (fun _ _ => .ok ([] : List Nat)) (fun _ _ => .ok ([] : List Nat))
        none ⟨[], [], [], []⟩ 0 = .error .NoDetail)
    ∧ (Geometry.from_raw
        (fun _ _ => .ok ([8] : List Nat)) (fun _ _ => .ok ([] : List Nat))
        (fun _ _ => .ok ([] : List Nat)) (fun _ _ => .ok ([] : List Nat))
        (some 7) ⟨[], [], [], []⟩ 0
        = .ok ⟨[8], [], [], 7⟩)
    ∧ (Geometry.from_raw
        (fun _ _ => .ok ([] : List Nat)) (fun _ _ => .ok ([] : List Nat))
        (fun _ _ => .ok ([] : List Nat)) (fun _ _ => .ok ([9] : List Nat))
        none ⟨[], [], [], []⟩ 0
        = .ok ⟨[], [], [], 9⟩) :=
  ⟨(from_raw_detail_cardinality
      (fun _ _ => .ok ([] : List Nat)) (fun _ _ => .ok ([] : List Nat))
      (fun _ _ => .ok ([] : List Nat)) (fun _ _ => .ok ([] : List Nat))
      none ⟨[], [], [], []⟩ 0).1 rfl rfl,
   (from_raw_detail_cardinality
      (fun _ _ => .ok ([8] : List Nat)) (fun _ _ => .ok ([] : List Nat))
      (fun _ _ => .ok ([] : List Nat)) (fun _ _ => .ok ([] : List Nat))
      (some 7) ⟨[], [], [], []⟩ 0).2.1 7 rfl rfl [8] [] [] rfl rfl rfl,
   (from_raw_detail_cardinality
      (fun _ _ => .ok ([] : List Nat)) (fun _ _ => .ok ([] : List Nat))
      (fun _ _ => .ok ([] : List Nat)) (fun _ _ => .ok ([9] : List Nat))
      none ⟨[], [], [], []⟩ 0).2.2 9 rfl [] [] [] rfl rfl rfl⟩

/-- **C6** Optional fallback: decoding a field typed `Option<T>` whose
attribute is absent yields exactly `num_elements` `None` values and never
invokes `T`'s decoder (the result is the same for every decoder
`tDecodeRaw`); when the attribute is present, every decoded value is
wrapped in `Some` and any error from `T`'s decoder propagates unchanged. -/
theorem option_decode_fallback {β : Type}
    (tDecodeRaw : Option RawAttribute → Nat → String → ErrContext → Except Error (List β))
    (num_elements : Nat) (attr_name : String) (ctx : ErrContext) :
    (optionFromAttrDataRaw tDecodeRaw none num_elements attr_name ctx
        = .ok (List.replicate num_elements none)
      ∧ (List.replicate num_elements (none : Option β)).length
          = num_elements)
    ∧ (∀ attr l, tDecodeRaw (some attr) num_elements attr_name ctx = .ok l →
        optionFromAttrDataRaw tDecodeRaw (some attr) num_elements attr_name ctx
          = .ok (l.map some))
    ∧ (∀ attr e, tDecodeRaw (some attr) num_elements attr_name ctx = .error e →
        optionFromAttrDataRaw tDecodeRaw (some attr) num_elements attr_name ctx
          = .error e) := by
  refine ⟨⟨rfl, List.length_replicate _ _⟩, ?_, ?_⟩
  · intro attr l h
    show Except.map (fun l => List.map some l)
      (tDecodeRaw (some attr) num_elements attr_name ctx) = _
    rw [h]
    rfl
  · intro attr e h
    show Except.map (fun l => List.map some l)
      (tDecodeRaw (some attr) num_elements attr_name ctx) = _
    rw [h]
    rfl

/-- Witness for C6: an absent column yields two `None` rows regardless of
the decoder; a present column wraps the decoded value in `Some`; a
decoder error propagates unchanged. -/
theorem option_decode_fallback_witness :
    (optionFromAttrDataRaw (fun _ _ _ _ => .ok [5]) none 2 "x" ⟨0, .Point⟩
        = .ok [none, none])
    ∧ (optionFromAttrDataRaw (fun _ _ _ _ => .ok [5]) (some ⟨1, .Index [5]⟩)
        2 "x" ⟨0, .Point⟩ = .ok [some 5])
    ∧ (optionFromAttrDataRaw
        (fun _ _ _ _ => (.error .NoGeometry : Except Error (List Nat)))
        (some ⟨1, .Index [5]⟩) 2 "x" ⟨0, .Point⟩ = .error .NoGeometry) :=
  ⟨((option_decode_fallback (fun _ _ _ _ => .ok [5]) 2 "x" ⟨0, .Point⟩).1.1).trans
      rfl,
   (option_decode_fallback (fun _ _ _ _ => .ok [5]) 2 "x" ⟨0, .Point⟩).2.1
      ⟨1, .Index [5]⟩ [5] rfl,
   (option_decode_fallback
      (fun _ _ _ _ => (.error .NoGeometry : Except Error (List Nat))) 2 "x"
      ⟨0, .Point⟩).2.2 ⟨1, .Index [5]⟩ .NoGeometry rfl⟩

/-- **C8** When an entity collection's columns disagree in row count,
decoding raises no error: per-field sequences are zipped position-wise
(`izip!`) and the resulting row sequence has length equal to the minimum
of the per-field tuple counts (silent truncation to the shortest). -/
theorem mismatched_counts_truncate {γ : Type} (t1 t2 : FieldType)
    (mk : t1.carrier → t2.carrier → γ) (name1 name2 : String)
    (attrs : AttrMap) (num_elements : Nat) (ctx : ErrContext)
    (l1 : List t1.carrier) (l2 : List t2.carrier)
    (h1 : from_attr_data_raw t1 (attrs.lookup name1) num_elements name1 ctx
      = .ok l1)
    (h2 : from_attr_data_raw t2 (attrs.lookup name2) num_elements name2 ctx
      = .ok l2) :
    entityFromAttr2 t1 t2 mk name1 name2 attrs num_elements ctx
        = .ok (List.zipWith mk l1 l2)
      ∧ (List.zipWith mk l1 l2).length = min l1.length l2.length := by
  constructor
  · unfold entityFromAttr2
    rw [h1, h2]
  · exact List.length_zipWith mk l1 l2

/-- Witness for C8: one attribute with 3 tuples and one with 5 decode
into 3 rows (the minimum) with no error. -/
theorem mismatched_counts_truncate_witness :
    entityFromAttr2 .i32T .indexT (fun (a : Int) (b : Nat) => (a, b)) "a" "b"
        [("a", ⟨1, .Int [1, 2, 3]⟩), ("b", ⟨1, .Index [0, 1, 2, 3, 4]⟩)]
        3 ⟨0, .Point⟩
      = .ok [(1, 0), (2, 1), (3, 2)]
      ∧ (3 : Nat) = min 3 5 :=
  ⟨((mismatched_counts_truncate .i32T .indexT (fun (a : Int) (b : Nat) => (a, b))
      "a" "b" [("a", ⟨1, .Int [1, 2, 3]⟩), ("b", ⟨1, .Index [0, 1, 2, 3, 4]⟩)]
      3 ⟨0, .Point⟩ ([1, 2, 3] : List Int) ([0, 1, 2, 3, 4] : List Nat)
      rfl rfl).1).trans rfl,
   by decide⟩
